import Mathlib

/-!
# Verification of the TextBox trainer layer

Shallow embedding of `textbox/trainer/trainer.py` (classes `Trainer`,
`GANTrainer`, `MaskGANTrainer`) and of the `early_stopping` helper that
`trainer.py` imports from `textbox.utils` (the copy of `utils.py` in this
snapshot belongs to a later revision and no longer contains it, so that one
helper is modelled from the specification).

Numeric conventions: PyTorch/NumPy scalars are modelled at the granularity of
exact rationals plus the special values `+inf`, `-inf` and `nan`; this is all
the `trainer` code observes through `torch.isnan`, `+`, `<` and division by a
positive batch count.  Python runtime exceptions that the trainer code can
raise (or observe) are modelled by `PyError`; external side effects
(`loss.backward()`, `optimizer.step()`, logging, actual file I/O) have no
observable influence on the trainer's control flow or returned values and are
not modelled.
-/

deriving instance DecidableEq for Except

namespace TextBox

/-- Python strings, as lists of characters (used where the trainer calls
`.lower()` or builds a path, so that everything stays kernel-computable). -/
abbrev PyStr := List Char

/-- Python's `str.lower()` restricted to the ASCII names the trainer
compares. -/
def pyLower (s : PyStr) : PyStr := s.map Char.toLower

/-- Python-level exceptions observable in `trainer.py`. -/
inductive PyError where
  /-- `ValueError('Training loss is nan')` raised by `Trainer._check_nan`. -/
  | valueError
  /-- `TypeError` (e.g. dividing a tuple or `None` by an `int`). -/
  | typeError
  /-- `AttributeError` (attribute read on a name never initialised). -/
  | attributeError
  /-- `KeyError` (missing key in a checkpoint dict). -/
  | keyError
  /-- `StopIteration` raised by `next` on an exhausted iterator. -/
  | stopIteration
  /-- `ZeroDivisionError`. -/
  | zeroDivisionError
deriving DecidableEq, Repr

/-- A float scalar at the granularity the trainer observes: an exact finite
value, an infinity of either sign, or `nan`. -/
inductive Scalar where
  | num (q : ℚ)
  | inf
  | negInf
  | nan
deriving DecidableEq, Repr

namespace Scalar

/-- IEEE-754-style addition on `Scalar` (`nan` propagates, `inf + -inf = nan`). -/
def add : Scalar → Scalar → Scalar
  | .nan, _ => .nan
  | _, .nan => .nan
  | .inf, .negInf => .nan
  | .negInf, .inf => .nan
  | .inf, _ => .inf
  | _, .inf => .inf
  | .negInf, _ => .negInf
  | _, .negInf => .negInf
  | .num a, .num b => .num (a + b)

/-- `torch.isnan`. -/
def isnan : Scalar → Bool
  | .nan => true
  | _ => false

/-- `math.isfinite` / finiteness of an IEEE value. -/
def isfinite : Scalar → Bool
  | .num _ => true
  | _ => false

/-- IEEE-754-style `<` (any comparison with `nan` is false). -/
def lt : Scalar → Scalar → Bool
  | .nan, _ => false
  | _, .nan => false
  | .num a, .num b => decide (a < b)
  | .negInf, .negInf => false
  | .negInf, _ => true
  | _, .negInf => false
  | .inf, _ => false
  | _, .inf => true

/-- Division of a scalar by a positive finite rational (every division in the
trainer divides an accumulated loss by a positive batch count; the zero-count
case is handled separately as `ZeroDivisionError`). -/
def divByPos : Scalar → ℚ → Scalar
  | .num a, n => .num (a / n)
  | .inf, _ => .inf
  | .negInf, _ => .negInf
  | .nan, _ => .nan

end Scalar

/-- The loss returned by a model step: a single scalar tensor or a tuple of
scalar tensors (`trainer.py` branches on `isinstance(losses, tuple)`). -/
inductive LossValue where
  | scalar (s : Scalar)
  | tup (ls : List Scalar)
deriving DecidableEq, Repr

namespace LossValue

/-- The combined scalar loss of a step: `sum(losses)` for a tuple (Python's
`sum` starts from `0`), the loss itself for a scalar. This is the value fed to
`Trainer._check_nan` and to `loss.backward()`. -/
def combined : LossValue → Scalar
  | .scalar s => s
  | .tup ls => ls.foldl Scalar.add (.num 0)

end LossValue

/-- One accumulation step of the running total (`trainer.py` lines 144-150,
repeated verbatim at 174-180, 441-447 and 778-784):
`total_loss = loss_tuple if total_loss is None else tuple(map(sum, zip(...)))`
for tuples (Python's `zip` silently truncates to the shorter arity), plain
addition for scalars.  Mixing a scalar step into a tuple total (or vice versa)
raises `TypeError` in Python. -/
def accumulate : Option LossValue → LossValue → Except PyError LossValue
  | none, l => .ok l
  | some (.scalar t), .scalar s => .ok (.scalar (t.add s))
  | some (.tup t), .tup ls => .ok (.tup (List.zipWith Scalar.add t ls))
  | some (.scalar _), .tup _ => .error .typeError
  | some (.tup _), .scalar _ => .error .typeError

/-- One full optimisation step as seen by the loss accumulator: accumulate the
step loss into the running total, then `_check_nan` the combined scalar loss
(`raise ValueError('Training loss is nan')` when `torch.isnan(loss)`,
lines 228-230).  `backward`/`clip_grad_norm_`/`opt.step()` are external side
effects with no observable trainer state. -/
def aggStep (acc : Option LossValue) (losses : LossValue) :
    Except PyError (Option LossValue) := do
  let acc2 ← accumulate acc losses
  if losses.combined.isnan then .error .valueError else .ok (some acc2)

/-- The per-batch loop of an epoch: fold `aggStep` over the step losses in
order; an error at any step aborts the loop (the Python exception propagates,
no later batch of the epoch is executed). -/
def epochSteps : List LossValue → Option LossValue → Except PyError (Option LossValue)
  | [], acc => .ok acc
  | l :: rest, acc => do
    let acc2 ← aggStep acc l
    epochSteps rest acc2

/-- `total_loss / n` for an integer batch count `n`, with Python semantics:
`None / n` and `tuple / n` raise `TypeError`, a scalar divided by `0` raises
`ZeroDivisionError`. -/
def pyDivCount (t : Option LossValue) (n : ℕ) : Except PyError Scalar :=
  match t with
  | none => .error .typeError
  | some (.tup _) => .error .typeError
  | some (.scalar s) =>
      if n = 0 then .error .zeroDivisionError else .ok (s.divByPos n)

namespace Trainer

/-- `Trainer._train_epoch` (lines 126-156) restricted to its observable
numeric behaviour: accumulate every batch loss with the nan check, then
`train_loss = total_loss / len(train_data)` (which raises `TypeError` when the
total is a tuple or `None`).  The perplexity `np.exp(train_loss)` is applied
by the caller (`fit`) through an explicit external-function parameter. -/
def train_epoch (steps : List LossValue) : Except PyError Scalar := do
  let tot ← epochSteps steps none
  pyDivCount tot steps.length

/-- `Trainer._valid_epoch` (lines 158-185): identical aggregation, nan check
and division as `_train_epoch`; the only differences (`model.eval()`, no
backward, no optimizer step) are external side effects. -/
def valid_epoch (steps : List LossValue) : Except PyError Scalar := do
  let tot ← epochSteps steps none
  pyDivCount tot steps.length

end Trainer

/-- Modelled from the spec: `early_stopping` lives in `textbox.utils`
(imported by `trainer.py` line 28) but the `utils.py` in this snapshot is from
a later revision and no longer contains it.  Spec §4.4: improvement test
`improved = (new_score > best_score) if bigger_is_better else
(new_score < best_score)`; if improved `updated_best = new_score`,
`updated_cur_step = 0`, else `updated_cur_step = cur_step + 1`;
`should_stop = updated_cur_step >= max_step`, with a non-positive `max_step`
disabling stopping.  Returned in source order
`(updated_best, updated_cur_step, should_stop, improved)`. -/
def early_stopping (value best : Scalar) (cur_step max_step : ℤ) (bigger : Bool) :
    Scalar × ℤ × Bool × Bool :=
  let improved : Bool := if bigger then best.lt value else value.lt best
  let updated_best := if improved then value else best
  let updated_cur_step : ℤ := if improved then 0 else cur_step + 1
  let should_stop : Bool := decide (0 < max_step ∧ max_step ≤ updated_cur_step)
  (updated_best, updated_cur_step, should_stop, improved)

/-- The three distinct `_save_checkpoint` call sites inside `Trainer.fit`
(all of them write to the same `self.saved_model_file`). -/
inductive SaveSite where
  /-- Line 263: the unconditional save right after every training epoch. -/
  | afterTrain
  /-- Line 272: the extra save in the validation-disabled branch, guarded by
  the `saved` flag. -/
  | noValid
  /-- Line 294: the save of the current best model after an improved
  validation, guarded by the `saved` flag. -/
  | best
deriving DecidableEq, Repr

/-- Observable events of one run of `Trainer.fit`, in program order. -/
inductive FitEvent where
  /-- `_train_epoch` for epoch `e` completed. -/
  | trained (e : ℕ)
  /-- `_save_checkpoint(e)` executed at the given call site. -/
  | saved (e : ℕ) (site : SaveSite)
  /-- the validation branch for epoch `e` was entered (`_valid_epoch` runs). -/
  | validated (e : ℕ)
deriving DecidableEq, Repr

/-- The mutable trainer fields touched by `Trainer.fit`
(`cur_step`, `best_valid_score`, `best_valid_result`,
`train_loss_ppl_dict`; `Trainer.__init__` lines 90-94). -/
structure FitState where
  cur_step : ℤ
  best_valid_score : Scalar
  best_valid_result : Option Scalar
  train_loss_ppl_dict : List (ℕ × Scalar × Scalar)
deriving DecidableEq, Repr

/-- The initial values set by `Trainer.__init__` (lines 90-94):
`cur_step = 0`, `best_valid_score = 100000000`, no best result, empty
loss/perplexity history. -/
def Trainer.initState : FitState :=
  { cur_step := 0
    best_valid_score := .num 100000000
    best_valid_result := none
    train_loss_ppl_dict := [] }

/-- The configuration fields of `Trainer.fit`'s epoch loop.  `npExp` is the
external `np.exp` used to derive a perplexity from a mean loss (its values
never influence control flow). -/
structure FitCfg where
  eval_step : ℤ
  stopping_step : ℤ
  npExp : Scalar → Scalar

/-- `Trainer.__init__` line 79: the `eval_step` field is clamped to
`min(config['eval_step'], epochs)`. -/
def Trainer.eval_step_field (cfg_eval_step : ℤ) (epochs : ℕ) : ℤ :=
  min cfg_eval_step (epochs : ℤ)

/-- The body of one iteration of `Trainer.fit`'s epoch loop (lines 257-305)
for epoch `e`.  `trainLosses e` / `vf e` are the per-batch losses the model
produces at epoch `e` (`model.calculate_loss` is an external collaborator).
`validLosses = none` models `valid_data` being `None`/falsy.  Returns the
updated state, the events of this iteration, and the `stop_flag` that breaks
the loop. -/
def Trainer.fitEpoch (cfg : FitCfg) (trainLosses : ℕ → List LossValue)
    (validLosses : Option (ℕ → List LossValue)) (saved : Bool)
    (st : FitState) (e : ℕ) :
    Except PyError (FitState × List FitEvent × Bool) := do
  -- lines 260-263: train, record `(train_loss, train_ppl)`, always checkpoint
  let train_loss ← train_epoch (trainLosses e)
  let st := { st with
    train_loss_ppl_dict :=
      st.train_loss_ppl_dict ++ [(e, train_loss, cfg.npExp train_loss)] }
  let ev := [FitEvent.trained e, FitEvent.saved e .afterTrain]
  match validLosses with
  | none =>
      -- line 270-276: validation disabled; extra save only when `saved`
      let ev := if saved then ev ++ [FitEvent.saved e .noValid] else ev
      .ok (st, ev, false)
  | some vf =>
      if cfg.eval_step ≤ 0 then
        let ev := if saved then ev ++ [FitEvent.saved e .noValid] else ev
        .ok (st, ev, false)
      else if ((e : ℤ) + 1) % cfg.eval_step = 0 then do
        -- lines 277-305
        let ev := ev ++ [FitEvent.validated e]
        let valid_score ← valid_epoch (vf e)
        let valid_result := cfg.npExp valid_score
        -- line 281-283: early_stopping with bigger=False
        let r := early_stopping valid_score st.best_valid_score st.cur_step
          cfg.stopping_step false
        let st := { st with best_valid_score := r.1, cur_step := r.2.1 }
        let stop_flag := r.2.2.1
        let update_flag := r.2.2.2
        -- lines 292-298: on improvement, save best (only when `saved`) and
        -- overwrite the best-result cache
        let ev := if update_flag ∧ saved then ev ++ [FitEvent.saved e .best] else ev
        let st := if update_flag then { st with best_valid_result := some valid_result } else st
        .ok (st, ev, stop_flag)
      else
        .ok (st, ev, false)

/-- The epoch loop of `Trainer.fit` (`for epoch_idx in range(start_epoch,
epochs)` with the early-stopping `break`), as structural recursion on the
number of remaining epochs. -/
def Trainer.fitLoop (cfg : FitCfg) (trainLosses : ℕ → List LossValue)
    (validLosses : Option (ℕ → List LossValue)) (saved : Bool) :
    FitState → ℕ → ℕ → Except PyError (FitState × List FitEvent)
  | st, _, 0 => .ok (st, [])
  | st, e, fuel + 1 => do
    let r ← fitEpoch cfg trainLosses validLosses saved st e
    if r.2.2 then .ok (r.1, r.2.1)
    else do
      let rest ← fitLoop cfg trainLosses validLosses saved r.1 (e + 1) fuel
      .ok (rest.1, r.2.1 ++ rest.2)

/-- `Trainer.fit` (lines 242-306): run the epoch loop from `start_epoch` to
`epochs - 1`, return `(best_valid_score, best_valid_result)` together with the
final state and the event trace. -/
def Trainer.fit (cfg : FitCfg) (epochs start_epoch : ℕ)
    (trainLosses : ℕ → List LossValue)
    (validLosses : Option (ℕ → List LossValue)) (saved : Bool)
    (st0 : FitState) :
    Except PyError (FitState × List FitEvent × (Scalar × Option Scalar)) := do
  let r ← fitLoop cfg trainLosses validLosses saved st0 start_epoch (epochs - start_epoch)
  .ok (r.1, r.2, (r.1.best_valid_score, r.1.best_valid_result))

/-- The optimizer kinds `Trainer._build_optimizer` can construct. -/
inductive OptimKind where
  | adam | sgd | adagrad | rmsprop
deriving DecidableEq, Repr

/-- `Trainer._build_optimizer` (lines 107-124): dispatch on
`self.learner.lower()`; any unrecognized kind logs a warning (the returned
Boolean) and falls back to Adam.  Never raises. -/
def Trainer.build_optimizer (learner : PyStr) : OptimKind × Bool :=
  if pyLower learner = "adam".data then (.adam, false)
  else if pyLower learner = "sgd".data then (.sgd, false)
  else if pyLower learner = "adagrad".data then (.adagrad, false)
  else if pyLower learner = "rmsprop".data then (.rmsprop, false)
  else (.adam, true)

/-! ## Checkpointing (`_save_checkpoint` / `resume_checkpoint`) -/

/-- `Trainer.__init__` lines 87-88: the checkpoint path
`os.path.join(checkpoint_dir, '{model}-{local_time}.pth')`.  The timestamp
comes from the external clock (`get_local_time`) and is a parameter. -/
def Trainer.saved_model_file_of (checkpoint_dir model local_time : PyStr) : PyStr :=
  checkpoint_dir ++ "/".data ++ model ++ "-".data ++ local_time ++ ".pth".data

/-- The checkpoint dict written by `torch.save`.  `P` is the type of
`model.state_dict()`, `O` the type of an optimizer `state_dict()`.
`optimizer = none` models the `'optimizer'` key being absent from the dict
(as in `GANTrainer._save_checkpoint`). -/
structure Checkpoint (P O : Type) where
  config_model : PyStr
  epoch : ℤ
  cur_step : ℤ
  best_valid_score : Scalar
  state_dict : P
  optimizer : Option O
deriving DecidableEq, Repr

/-- The trainer fields involved in the checkpoint round trip. -/
structure TrainerCkpt (P O : Type) where
  /-- `config['model']`. -/
  config_model : PyStr
  start_epoch : ℤ
  cur_step : ℤ
  best_valid_score : Scalar
  /-- `model.state_dict()` (mutated in place by `load_state_dict`). -/
  params : P
  /-- `optimizer.state_dict()`. -/
  opt_state : O
  saved_model_file : PyStr
deriving DecidableEq, Repr

/-- `Trainer._save_checkpoint` (lines 187-202): the state dict holds the
config, `epoch`, `cur_step`, `best_valid_score`, the model `state_dict` and
the single optimizer state; it is written to `self.saved_model_file`.
Returns the written checkpoint and the target path. -/
def Trainer.save_checkpoint (t : TrainerCkpt P O) (epoch : ℤ) :
    Checkpoint P O × PyStr :=
  ({ config_model := t.config_model
     epoch := epoch
     cur_step := t.cur_step
     best_valid_score := t.best_valid_score
     state_dict := t.params
     optimizer := some t.opt_state }, t.saved_model_file)

/-- `GANTrainer._save_checkpoint` (lines 466-480): same fields as the base
save EXCEPT that no optimizer state at all is included in the dict. -/
def GANTrainer.save_checkpoint (t : TrainerCkpt P O) (epoch : ℤ) :
    Checkpoint P O × PyStr :=
  ({ config_model := t.config_model
     epoch := epoch
     cur_step := t.cur_step
     best_valid_score := t.best_valid_score
     state_dict := t.params
     optimizer := none }, t.saved_model_file)

/-- `Trainer.resume_checkpoint` (lines 204-226): set
`start_epoch = checkpoint['epoch'] + 1`, restore `cur_step` and
`best_valid_score`, warn (second component, line 218-220) iff the lowercased
checkpoint model name differs from the configured one — restoration proceeds
either way — load the model `state_dict`, then read `checkpoint['optimizer']`
(a `KeyError` if that key is absent, as it is for GAN-written checkpoints). -/
def Trainer.resume_checkpoint (ck : Checkpoint P O) (t : TrainerCkpt P O) :
    Except PyError (TrainerCkpt P O × Bool) :=
  let t2 := { t with
    start_epoch := ck.epoch + 1
    cur_step := ck.cur_step
    best_valid_score := ck.best_valid_score }
  let warn : Bool := pyLower ck.config_model ≠ pyLower t.config_model
  let t3 := { t2 with params := ck.state_dict }
  match ck.optimizer with
  | none => .error .keyError
  | some o => .ok ({ t3 with opt_state := o }, warn)

/-! ## GAN trainer family -/

/-- An optimizer handle as returned by `GANTrainer._build_module_optimizer`:
a single optimizer, or a `(manager_opt, worker_opt)` pair for a module that
splits its parameters (`module._get_name() == 'LeakGANGenerator'`). -/
inductive OptHandle where
  | single (k : OptimKind)
  | multi (manager worker : OptimKind)
deriving DecidableEq, Repr

/-- `GANTrainer._build_module_optimizer` (lines 392-438): `multi_flag` is the
capability check `module._get_name() == 'LeakGANGenerator'`; the learner kind
is resolved exactly as in `_build_optimizer` (case-insensitive, unrecognized
kinds fall back to Adam with a warning, never raising), and the same kind is
used for both partitions of a split module. -/
def GANTrainer.build_module_optimizer (learner : PyStr) (multi_flag : Bool) :
    OptHandle × Bool :=
  let mk : OptimKind → OptHandle := fun k =>
    if multi_flag then .multi k k else .single k
  if pyLower learner = "adam".data then (mk .adam, false)
  else if pyLower learner = "sgd".data then (mk .sgd, false)
  else if pyLower learner = "adagrad".data then (mk .adagrad, false)
  else if pyLower learner = "rmsprop".data then (mk .rmsprop, false)
  else (mk .adam, true)

/-- `GANTrainer._g_train_epoch` (lines 498-520): per-batch `_optimize_step`
aggregation (identical accumulate-then-`_check_nan` block, lines 440-448),
then division by `len(train_data)`, ELEMENT-WISE for tuple totals
(line 517: `[l / len(train_data) for l in total_loss]`), and `tuple(...)`
conversion of the resulting list. -/
def GANTrainer.g_train_epoch (steps : List LossValue) :
    Except PyError LossValue := do
  let tot ← epochSteps steps none
  match tot with
  | none => .error .typeError  -- `None / len(train_data)`
  | some (.scalar s) =>
      if steps.length = 0 then .error .zeroDivisionError
      else .ok (.scalar (s.divByPos steps.length))
  | some (.tup ls) =>
      if steps.length = 0 then .error .zeroDivisionError
      else .ok (.tup (ls.map (fun l => l.divByPos steps.length)))

/-- `GANTrainer._d_train_epoch` (lines 522-546): `d_sample_training_epochs`
passes over `zip(real_dataloader, fake_dataloader)` —
`numPairs = min(len(real_dataloader), len(fake_dataloader))` zipped
mini-batch pairs per pass; `dLoss s i` is the external
`calculate_d_train_loss` at pass `s`, pair `i`.  The phase total is divided
by `min(...)` and then by `d_sample_training_epochs`. -/
def GANTrainer.d_train_epoch (dste numPairs : ℕ) (dLoss : ℕ → ℕ → LossValue) :
    Except PyError Scalar := do
  let tot ← (List.range dste).foldlM
    (fun acc s => (List.range numPairs).foldlM
      (fun acc2 i => aggStep acc2 (dLoss s i)) acc)
    (none : Option LossValue)
  let m1 ← pyDivCount tot numPairs
  if dste = 0 then .error .zeroDivisionError else .ok (m1.divByPos dste)

/-- `GANTrainer._adversarial_train_epoch` (lines 548-568): one generator
adversarial `_optimize_step`, then `adversarail_d_epochs` full discriminator
training epochs whose results are discarded; the returned generator total is
NOT divided by anything. -/
def GANTrainer.adversarial_train_epoch (advGLoss : LossValue)
    (adv_d_epochs dste numPairs : ℕ) (dLoss : ℕ → ℕ → ℕ → LossValue) :
    Except PyError (Option LossValue) := do
  let tot ← aggStep none advGLoss
  let _ ← (List.range adv_d_epochs).foldlM
    (fun _ e => GANTrainer.d_train_epoch dste numPairs (dLoss e))
    (Scalar.num 0)
  .ok tot

/-- The observable outcome of `GANTrainer.fit`: the two pretraining loss
dicts (`self.g_pretraining_loss_dict` / `self.d_pretraining_loss_dict`,
initialised in `GANTrainer.__init__` lines 387-388), the epoch arguments of
the `_save_checkpoint` calls executed, and the returned pair. -/
structure GANFitOut where
  g_dict : List (ℕ × Scalar)
  d_dict : List (ℕ × Scalar)
  saves : List ℕ
  ret : Scalar × Option Scalar
deriving DecidableEq, Repr

/-- `GANTrainer.fit` (lines 570-631).  Phase order: generator pretraining
(`g_pretraining_epochs` epochs of `_g_train_epoch`), discriminator
pretraining (`d_pretraining_epochs` epochs of `_d_train_epoch`), adversarial
training (`adversarail_training_epochs` epochs of
`_adversarial_train_epoch`), then a single `_save_checkpoint` and
`return -1, None`.  The dict-store recorded after each pretraining epoch is
`sum(train_loss) if isinstance(train_loss, tuple) else train_loss`.

The adversarial loop body executes
`self.train_loss_dict[epoch_idx] = ...` (line 621) — but no `__init__` in
`trainer.py` ever creates a `train_loss_dict` attribute (`Trainer.__init__`
line 94 creates `train_loss_ppl_dict`), so the attribute read raises
`AttributeError` right after the first adversarial epoch's training. -/
def GANTrainer.fit (g_pre d_pre adv_epochs adv_d dste numPairs : ℕ)
    (gSteps : ℕ → List LossValue)
    (dLoss : ℕ → ℕ → ℕ → LossValue)
    (advG : ℕ → LossValue)
    (advDLoss : ℕ → ℕ → ℕ → ℕ → LossValue) :
    Except PyError GANFitOut := do
  -- generator pretraining (lines 586-595)
  let gd ← (List.range g_pre).foldlM (fun acc e => do
      let tl ← GANTrainer.g_train_epoch (gSteps e)
      .ok (acc ++ [(e, tl.combined)])) ([] : List (ℕ × Scalar))
  -- discriminator pretraining (lines 602-611)
  let dd ← (List.range d_pre).foldlM (fun acc e => do
      let tl ← GANTrainer.d_train_epoch dste numPairs (dLoss e)
      .ok (acc ++ [(e, tl)])) ([] : List (ℕ × Scalar))
  -- adversarial training (lines 618-626)
  let _ ← (List.range adv_epochs).foldlM (fun _ e => do
      let _tl ← GANTrainer.adversarial_train_epoch (advG e) adv_d dste numPairs
        (advDLoss e)
      -- line 621: `self.train_loss_dict[epoch_idx] = ...` on the missing attribute
      (.error .attributeError : Except PyError Unit)) ()
  -- line 630-631
  .ok { g_dict := gd, d_dict := dd, saves := [adv_epochs]
        ret := (.num (-1), none) }

/-! ## MaskGAN interleaved adversarial epoch -/

/-- A Python iterator over a list of batches (`copy.deepcopy(train_data)`
restarts one from position 0). -/
structure PyIter (B : Type) where
  batches : List B
  pos : ℕ
deriving DecidableEq, Repr

/-- `next(it)`: the batch at the current position, advancing it, or
`StopIteration` when exhausted. -/
def PyIter.next {B : Type} (it : PyIter B) : Except PyError (B × PyIter B) :=
  match it.batches.get? it.pos with
  | none => .error .stopIteration
  | some b => .ok (b, ⟨it.batches, it.pos + 1⟩)

namespace MaskGANTrainer

/-- Lines 860-865: draw the next discriminator batch, catching a single
`StopIteration` by deleting the exhausted iterator, re-creating one from a
fresh deep copy of `train_data`, and drawing from that fresh iterator (that
second `next` is NOT protected). -/
def drawNext {B : Type} (data : List B) (it : PyIter B) :
    Except PyError (B × PyIter B) :=
  match it.next with
  | .ok r => .ok r
  | .error _ => (PyIter.mk data 0).next

/-- The discriminator micro-step block of
`MaskGANTrainer._adversarial_train_epoch` (lines 858-867): `rem` remaining
micro-steps of the current macro-step, `i` the inner loop counter (the value
the code passes as `epoch_idx`), `it` the discriminator-side iterator over
`data`, `acc` the running `dis_total_loss`, `dn` the running `d_num`. -/
def dSteps {B : Type} (data : List B) (dLoss : B → ℕ → LossValue) :
    ℕ → ℕ → PyIter B → Option LossValue → ℕ →
    Except PyError (PyIter B × Option LossValue × ℕ)
  | 0, _, it, acc, dn => .ok (it, acc, dn)
  | rem + 1, i, it, acc, dn => do
    let dn := dn + 1
    let r ← drawNext data it
    let acc ← aggStep acc (dLoss r.1 i)
    dSteps data dLoss rem (i + 1) r.2 acc dn

/-- The generator macro-step loop of
`MaskGANTrainer._adversarial_train_epoch` (lines 855-874): for each
generator-side batch `g_x`, first `adversarail_d_epochs` discriminator
micro-steps, then one generator step and one critic step from
`calculate_g_adversarial_loss(g_x, epoch_idx=g_num)` (modelled by
`gLoss g_x g_num`, returning the `(gen_losses, critic_losses)` pair). -/
def genLoop {B : Type} (data : List B) (m : ℕ) (dLoss : B → ℕ → LossValue)
    (gLoss : B → ℕ → LossValue × LossValue) :
    List B → PyIter B → Option LossValue → Option LossValue →
    Option LossValue → ℕ → ℕ →
    Except PyError (Option LossValue × Option LossValue × Option LossValue × ℕ × ℕ)
  | [], _, disT, genT, criT, gn, dn => .ok (disT, genT, criT, gn, dn)
  | g_x :: rest, it, disT, genT, criT, gn, dn => do
    let gn := gn + 1
    let r ← dSteps data dLoss m 0 it disT dn
    let gl := gLoss g_x gn
    let genT ← aggStep genT gl.1
    let criT ← aggStep criT gl.2
    genLoop data m dLoss gLoss rest r.1 r.2.1 genT criT gn r.2.2

/-- `MaskGANTrainer._adversarial_train_epoch` (lines 835-875): two
independent deep copies of `train_data` drive the discriminator micro-steps
and the generator macro-steps; one batch is drawn from the discriminator
iterator and discarded before the loop (line 854, unprotected); the epoch
returns `(dis_total_loss / d_num, gen_total_loss / g_num,
critic_total_loss / g_num)`. -/
def adversarial_train_epoch {B : Type} (data : List B) (m : ℕ)
    (dLoss : B → ℕ → LossValue) (gLoss : B → ℕ → LossValue × LossValue) :
    Except PyError (Scalar × Scalar × Scalar) := do
  let dis0 : PyIter B := ⟨data, 0⟩
  let d0 ← dis0.next
  let r ← genLoop data m dLoss gLoss data d0.2 none none none 0 0
  let d ← pyDivCount r.1 r.2.2.2.2
  let g ← pyDivCount r.2.1 r.2.2.2.1
  let c ← pyDivCount r.2.2.1 r.2.2.2.1
  .ok (d, g, c)

/-- Reference value of the discriminator micro-step sums of the interleaved
epoch: starting at global micro-step `k0` with inner counter `i0`, the sum of
`dval` over `rem` further micro-steps, the `k`-th micro-step of the epoch
consuming the batch at index `(1 + k) % data.length` (index 0 is drawn and
discarded before the loop; on exhaustion the iterator restarts from a fresh
copy of the data). -/
def dSpecSum {B : Type} (data : List B) (dval : B → ℕ → ℚ) :
    ℕ → ℕ → ℕ → ℚ
  | _, _, 0 => 0
  | k0, i0, rem + 1 =>
      (match data.get? ((1 + k0) % data.length) with
       | some b => dval b i0
       | none => 0) + dSpecSum data dval (k0 + 1) (i0 + 1) rem

/-- Reference value of the epoch's discriminator total over `r` generator
macro-steps starting at global micro-step `k0`: each macro-step contributes
`m` micro-steps whose inner counter restarts at 0. -/
def advDSpec {B : Type} (data : List B) (dval : B → ℕ → ℚ) (m : ℕ) :
    ℕ → ℕ → ℚ
  | _, 0 => 0
  | k0, r + 1 => dSpecSum data dval k0 0 m + advDSpec data dval m (k0 + m) r

/-- Reference value of the generator-side (or critic-side) totals: one step
per batch of `rest`, in order, the step for the batch at (1-based) position
`g` receiving `g` as its `g_num` argument. -/
def gSpecSum {B : Type} (gval : B → ℕ → ℚ) : List B → ℕ → ℚ
  | [], _ => 0
  | b :: rest, gn0 => gval b (gn0 + 1) + gSpecSum gval rest (gn0 + 1)

end MaskGANTrainer

/-! ## Helper lemmas -/

lemma exbind_ok {α β : Type} (a : α) (f : α → Except PyError β) :
    (Except.ok a >>= f) = f a := rfl

lemma exbind_error {α β : Type} (e : PyError) (f : α → Except PyError β) :
    ((Except.error e : Except PyError α) >>= f) = .error e := rfl

/-- A running total holding a plain finite scalar (or still `None`). -/
def optQ (a : Option ℚ) : Option LossValue :=
  a.map (fun q => .scalar (.num q))

lemma aggStep_optQ (a : Option ℚ) (x : ℚ) :
    aggStep (optQ a) (.scalar (.num x)) = .ok (optQ (some (a.getD 0 + x))) := by
  cases a <;>
    simp [aggStep, accumulate, optQ, LossValue.combined, Scalar.isnan,
      Scalar.add, exbind_ok]

lemma pyDivCount_optQ (q : ℚ) (K : ℕ) (hK : K ≠ 0) :
    pyDivCount (optQ (some q)) K = .ok (.num (q / (K : ℚ))) := by
  simp [pyDivCount, optQ, hK, Scalar.divByPos]

lemma draw_spec {B : Type} (data : List B) (hne : data ≠ []) (k0 : ℕ) :
    MaskGANTrainer.drawNext data ⟨data, k0 % data.length + 1⟩ =
    match data.get? ((1 + k0) % data.length) with
    | some b => .ok (b, ⟨data, (k0 + 1) % data.length + 1⟩)
    | none => .error .stopIteration := by
  have hn : 0 < data.length := List.length_pos.mpr hne
  have hmod : k0 % data.length < data.length := Nat.mod_lt _ hn
  have h1k : (1 + k0) % data.length = (1 + k0 % data.length) % data.length :=
    (Nat.add_mod_mod 1 k0 data.length).symm
  have hk1 : (k0 + 1) % data.length = (k0 % data.length + 1) % data.length :=
    (Nat.mod_add_mod k0 data.length 1).symm
  rcases Nat.lt_or_ge (k0 % data.length + 1) data.length with hlt | hge
  · have e1 : (1 + k0) % data.length = k0 % data.length + 1 := by
      rw [h1k, Nat.add_comm 1 (k0 % data.length), Nat.mod_eq_of_lt hlt]
    have e2 : (k0 + 1) % data.length = k0 % data.length + 1 := by
      rw [hk1, Nat.mod_eq_of_lt hlt]
    have hb : data[k0 % data.length + 1]? = some (data[k0 % data.length + 1]) :=
      List.getElem?_eq_getElem hlt
    simp [MaskGANTrainer.drawNext, PyIter.next, e1, e2, hb]
  · have heq : k0 % data.length + 1 = data.length := by omega
    have e1 : (1 + k0) % data.length = 0 := by
      rw [h1k, Nat.add_comm 1 (k0 % data.length), heq, Nat.mod_self]
    have e2 : (k0 + 1) % data.length = 0 := by
      rw [hk1, heq, Nat.mod_self]
    have hnone : data[k0 % data.length + 1]? = none := by
      rw [heq]; exact List.getElem?_eq_none (le_refl _)
    have hb : data[(0:ℕ)]? = some (data[0]) := List.getElem?_eq_getElem hn
    simp [MaskGANTrainer.drawNext, PyIter.next, hnone, hb, e1, e2]

lemma dSteps_spec {B : Type} (data : List B) (dval : B → ℕ → ℚ)
    (dLoss : B → ℕ → LossValue) (hne : data ≠ [])
    (hd : ∀ b i, dLoss b i = .scalar (.num (dval b i))) :
    ∀ (rem i0 k0 : ℕ) (a : Option ℚ),
      MaskGANTrainer.dSteps data dLoss (rem + 1) i0
          ⟨data, k0 % data.length + 1⟩ (optQ a) k0 =
        .ok (⟨data, (k0 + (rem + 1)) % data.length + 1⟩,
             optQ (some (a.getD 0 +
               MaskGANTrainer.dSpecSum data dval k0 i0 (rem + 1))),
             k0 + (rem + 1)) := by
  have hn : 0 < data.length := List.length_pos.mpr hne
  intro rem
  induction rem with
  | zero =>
    intro i0 k0 a
    have hdraw := draw_spec data hne k0
    have hidx : (1 + k0) % data.length < data.length := Nat.mod_lt _ hn
    have hb : data.get? ((1 + k0) % data.length) =
        some (data[(1 + k0) % data.length]) := by
      rw [List.get?_eq_getElem?]; exact List.getElem?_eq_getElem hidx
    unfold MaskGANTrainer.dSteps
    rw [hdraw, hb]
    simp only [exbind_ok, hd]
    rw [aggStep_optQ]
    simp only [exbind_ok]
    unfold MaskGANTrainer.dSteps
    conv_rhs => rw [MaskGANTrainer.dSpecSum]
    rw [hb]
    simp [MaskGANTrainer.dSpecSum]
  | succ rm ih =>
    intro i0 k0 a
    have hdraw := draw_spec data hne k0
    have hidx : (1 + k0) % data.length < data.length := Nat.mod_lt _ hn
    have hb : data.get? ((1 + k0) % data.length) =
        some (data[(1 + k0) % data.length]) := by
      rw [List.get?_eq_getElem?]; exact List.getElem?_eq_getElem hidx
    unfold MaskGANTrainer.dSteps
    rw [hdraw, hb]
    simp only [exbind_ok, hd]
    rw [aggStep_optQ]
    simp only [exbind_ok]
    rw [ih (i0 + 1) (k0 + 1)
      (some (a.getD 0 + dval (data[(1 + k0) % data.length]) i0))]
    have h3 : k0 + 1 + (rm + 1) = k0 + (rm + 1 + 1) := by omega
    rw [h3]
    conv_rhs => rw [MaskGANTrainer.dSpecSum]
    rw [hb]
    simp [add_assoc]

lemma genLoop_spec {B : Type} (data : List B) (dval gval cval : B → ℕ → ℚ)
    (dLoss : B → ℕ → LossValue) (gLoss : B → ℕ → LossValue × LossValue)
    (mm : ℕ) (hne : data ≠ [])
    (hd : ∀ b i, dLoss b i = .scalar (.num (dval b i)))
    (hg : ∀ b g, gLoss b g =
      (.scalar (.num (gval b g)), .scalar (.num (cval b g)))) :
    ∀ (rest : List B) (gn0 k0 : ℕ) (aD aG aC : Option ℚ),
      MaskGANTrainer.genLoop data (mm + 1) dLoss gLoss rest
          ⟨data, k0 % data.length + 1⟩ (optQ aD) (optQ aG) (optQ aC) gn0 k0 =
        .ok (optQ (if rest.isEmpty then aD else
                some (aD.getD 0 +
                  MaskGANTrainer.advDSpec data dval (mm + 1) k0 rest.length)),
             optQ (if rest.isEmpty then aG else
                some (aG.getD 0 + MaskGANTrainer.gSpecSum gval rest gn0)),
             optQ (if rest.isEmpty then aC else
                some (aC.getD 0 + MaskGANTrainer.gSpecSum cval rest gn0)),
             gn0 + rest.length, k0 + rest.length * (mm + 1)) := by
  intro rest
  induction rest with
  | nil =>
    intro gn0 k0 aD aG aC
    simp [MaskGANTrainer.genLoop]
  | cons x rest ih =>
    intro gn0 k0 aD aG aC
    unfold MaskGANTrainer.genLoop
    rw [dSteps_spec data dval dLoss hne hd mm 0 k0 aD]
    simp only [exbind_ok, hg]
    rw [aggStep_optQ aG (gval x (gn0 + 1))]
    simp only [exbind_ok]
    rw [aggStep_optQ aC (cval x (gn0 + 1))]
    simp only [exbind_ok]
    rw [ih (gn0 + 1) (k0 + (mm + 1))
      (some (aD.getD 0 + MaskGANTrainer.dSpecSum data dval k0 0 (mm + 1)))
      (some (aG.getD 0 + gval x (gn0 + 1)))
      (some (aC.getD 0 + cval x (gn0 + 1)))]
    cases rest with
    | nil =>
      have hds : MaskGANTrainer.advDSpec data dval (mm + 1) k0 (0 + 1) =
          MaskGANTrainer.dSpecSum data dval k0 0 (mm + 1) +
            MaskGANTrainer.advDSpec data dval (mm + 1) (k0 + (mm + 1)) 0 := rfl
      have hgs : MaskGANTrainer.gSpecSum gval [x] gn0 =
          gval x (gn0 + 1) + MaskGANTrainer.gSpecSum gval [] (gn0 + 1) := rfl
      have hcs : MaskGANTrainer.gSpecSum cval [x] gn0 =
          cval x (gn0 + 1) + MaskGANTrainer.gSpecSum cval [] (gn0 + 1) := rfl
      simp only [List.isEmpty_nil, if_true, List.isEmpty_cons, Bool.false_eq_true,
        if_false, List.length_nil, List.length_cons, Nat.zero_add]
      rw [hds, hgs, hcs]
      simp only [MaskGANTrainer.advDSpec, MaskGANTrainer.gSpecSum, optQ,
        Option.map_some, Except.ok.injEq, Prod.mk.injEq, Option.some.injEq,
        LossValue.scalar.injEq, Scalar.num.injEq]
      and_intros <;> first | rfl | ring
    | cons y rest2 =>
      have hds : MaskGANTrainer.advDSpec data dval (mm + 1) k0
          (rest2.length + 1 + 1) =
          MaskGANTrainer.dSpecSum data dval k0 0 (mm + 1) +
            MaskGANTrainer.advDSpec data dval (mm + 1) (k0 + (mm + 1))
              (rest2.length + 1) := rfl
      have hgs : MaskGANTrainer.gSpecSum gval (x :: y :: rest2) gn0 =
          gval x (gn0 + 1) +
            MaskGANTrainer.gSpecSum gval (y :: rest2) (gn0 + 1) := rfl
      have hcs : MaskGANTrainer.gSpecSum cval (x :: y :: rest2) gn0 =
          cval x (gn0 + 1) +
            MaskGANTrainer.gSpecSum cval (y :: rest2) (gn0 + 1) := rfl
      simp only [List.length_cons]
      rw [hds, hgs, hcs]
      simp only [List.isEmpty_cons, Bool.false_eq_true, if_false, Option.getD_some,
        optQ, Option.map_some, Except.ok.injEq, Prod.mk.injEq, Option.some.injEq,
        LossValue.scalar.injEq, Scalar.num.injEq]
      and_intros <;> first | rfl | ring

lemma epochSteps_append (xs ys : List LossValue) (acc : Option LossValue) :
    epochSteps (xs ++ ys) acc =
      (epochSteps xs acc >>= fun a => epochSteps ys a) := by
  induction xs generalizing acc with
  | nil => simp [epochSteps, exbind_ok]
  | cons x xs ih =>
      simp only [List.cons_append, epochSteps]
      cases h : aggStep acc x with
      | ok a => simp [exbind_ok, h, ih]
      | error e => simp [exbind_error, h]

/-! ## Claim theorems -/

/-- **C1, counterexample**: a step whose combined scalar loss is `+∞` — a
non-finite value that is not NaN — does NOT make `fit` raise:
`_check_nan` only tests `torch.isnan`, so the base trainer's `fit` runs the
step, records the infinite loss, checkpoints and returns normally (the run
completes with the full event trace). -/
theorem claim1_counterexample :
    (LossValue.scalar Scalar.inf).combined.isfinite = false ∧
    (Trainer.fit { eval_step := 0, stopping_step := 2, npExp := id } 1 0
      (fun _ => [.scalar .inf]) none true Trainer.initState).map
      (fun r => (r.1.train_loss_ppl_dict, r.2.1)) =
      .ok ([(0, .inf, .inf)],
           [.trained 0, .saved 0 .afterTrain, .saved 0 .noValid]) := by
  with_unfolding_all decide

/-- **C1, amended**: for every training or validation step in a trainer's
`fit`, if the combined scalar loss of that step is NaN (a non-NaN non-finite
value such as `±∞` is not detected), the step raises the fatal
`ValueError('Training loss is nan')` immediately: the per-step aggregation
errors at that step, the remaining steps of the epoch are never examined
(the result over `pre ++ l :: suf` equals the result over `pre ++ [l]`),
and the error propagates uncaught out of `_train_epoch`, `_valid_epoch` and
`fit` itself — both when the NaN occurs in a training step and when it
occurs in a validation step. -/
theorem claim1_theorem (pre suf : List LossValue) (l : LossValue)
    (acc : Option LossValue) (v : LossValue)
    (hpre : epochSteps pre none = .ok acc)
    (hacc : accumulate acc l = .ok v)
    (hnan : l.combined.isnan = true)
    (cfg : FitCfg) (epochs start : ℕ) (hlt : start < epochs)
    (tl : ℕ → List LossValue) (vl : ℕ → List LossValue) (saved : Bool)
    (st : FitState) :
    aggStep acc l = .error .valueError ∧
    epochSteps (pre ++ l :: suf) none = epochSteps (pre ++ [l]) none ∧
    epochSteps (pre ++ l :: suf) none = .error .valueError ∧
    Trainer.train_epoch (pre ++ l :: suf) = .error .valueError ∧
    Trainer.valid_epoch (pre ++ l :: suf) = .error .valueError ∧
    (tl start = pre ++ l :: suf →
      Trainer.fit cfg epochs start tl (some vl) saved st = .error .valueError) ∧
    (cfg.eval_step = 1 → vl start = pre ++ l :: suf →
      ∀ s, Trainer.train_epoch (tl start) = .ok s →
      Trainer.fit cfg epochs start tl (some vl) saved st = .error .valueError) := by
  have hstep : aggStep acc l = .error .valueError := by
    unfold aggStep
    rw [hacc]
    simp [exbind_ok, hnan]
  have hcons : ∀ ys : List LossValue, epochSteps (l :: ys) acc = .error .valueError := by
    intro ys
    simp only [epochSteps]
    rw [hstep]
    simp [exbind_error]
  have hfull : epochSteps (pre ++ l :: suf) none = .error .valueError := by
    rw [epochSteps_append, hpre, exbind_ok, hcons]
  have hone : epochSteps (pre ++ [l]) none = .error .valueError := by
    rw [epochSteps_append, hpre, exbind_ok, hcons]
  have htrain : Trainer.train_epoch (pre ++ l :: suf) = .error .valueError := by
    unfold Trainer.train_epoch
    rw [hfull]
    simp [exbind_error]
  have hvalid : Trainer.valid_epoch (pre ++ l :: suf) = .error .valueError := by
    unfold Trainer.valid_epoch
    rw [hfull]
    simp [exbind_error]
  refine ⟨hstep, hfull.trans hone.symm, hfull, htrain, hvalid, ?_, ?_⟩
  · intro htl
    obtain ⟨f, hf⟩ : ∃ f, epochs - start = f + 1 :=
      ⟨epochs - start - 1, by omega⟩
    unfold Trainer.fit
    rw [hf]
    unfold Trainer.fitLoop
    unfold Trainer.fitEpoch
    rw [htl, htrain]
    simp [exbind_error]
  · intro hes hvl s hs
    obtain ⟨f, hf⟩ : ∃ f, epochs - start = f + 1 :=
      ⟨epochs - start - 1, by omega⟩
    unfold Trainer.fit
    rw [hf]
    unfold Trainer.fitLoop
    unfold Trainer.fitEpoch
    rw [hs]
    simp only [exbind_ok]
    rw [hes]
    have hmod : ((start : ℤ) + 1) % 1 = 0 := Int.emod_one _
    simp only [hmod]
    rw [hvl, hvalid]
    simp [exbind_error]

/-- Witness for C1 at a concrete input: an epoch whose second training step
has loss NaN makes `fit` raise `ValueError` (the embedded
`.error .valueError`).  Derived by applying `claim1_theorem`. -/
theorem claim1_witness :
    Trainer.fit { eval_step := 1, stopping_step := 2, npExp := id } 2 0
      (fun _ => [.scalar (.num 1), .scalar .nan, .scalar (.num 7)])
      (some fun _ => [.scalar (.num 1)]) true Trainer.initState =
      .error .valueError :=
  (claim1_theorem [.scalar (.num 1)] [.scalar (.num 7)] (.scalar .nan)
    (some (.scalar (.num 1))) (.scalar .nan)
    (by with_unfolding_all decide) (by with_unfolding_all decide)
    (by with_unfolding_all decide)
    { eval_step := 1, stopping_step := 2, npExp := id } 2 0 (by decide)
    (fun _ => [.scalar (.num 1), .scalar .nan, .scalar (.num 7)])
    (fun _ => [.scalar (.num 1)]) true Trainer.initState).2.2.2.2.2.1 rfl


/-- **C2** (spec-modelled `early_stopping`): for every input tuple, the
early-stopping policy is a pure function returning
`(updated_best, updated_cur_step, should_stop, improved)` with: `improved`
iff `new_score > best_score` when `bigger_is_better` else
`new_score < best_score`; on improvement `updated_best = new_score` and
`updated_cur_step = 0`, otherwise `updated_best = best_score` and
`updated_cur_step = cur_step + 1`; and `should_stop` iff
`updated_cur_step >= max_step` with `max_step > 0` (a non-positive
`max_step` disables stopping). -/
theorem claim2_theorem (value best : Scalar) (cur_step max_step : ℤ) (bigger : Bool) :
    ((early_stopping value best cur_step max_step bigger).2.2.2 =
      (if bigger then best.lt value else value.lt best)) ∧
    ((early_stopping value best cur_step max_step bigger).2.2.2 = true →
      (early_stopping value best cur_step max_step bigger).1 = value ∧
      (early_stopping value best cur_step max_step bigger).2.1 = 0) ∧
    ((early_stopping value best cur_step max_step bigger).2.2.2 = false →
      (early_stopping value best cur_step max_step bigger).1 = best ∧
      (early_stopping value best cur_step max_step bigger).2.1 = cur_step + 1) ∧
    ((early_stopping value best cur_step max_step bigger).2.2.1 = true ↔
      0 < max_step ∧ max_step ≤ (early_stopping value best cur_step max_step bigger).2.1) := by
  unfold early_stopping
  by_cases h : (if bigger then best.lt value else value.lt best) = true <;>
    simp [h]

/-- Witness for C2 at concrete inputs: score 5 improves on best 10 under
`bigger = false` (best becomes 5, patience resets), and a non-improving
score 20 at `cur_step = 2`, `max_step = 3` both increments the counter to 3
and triggers the stop.  Derived by applying `claim2_theorem`. -/
theorem claim2_witness :
    (early_stopping (.num 5) (.num 10) 4 3 false).1 = .num 5 ∧
    (early_stopping (.num 5) (.num 10) 4 3 false).2.1 = 0 ∧
    (early_stopping (.num 20) (.num 10) 2 3 false).2.1 = 3 ∧
    (early_stopping (.num 20) (.num 10) 2 3 false).2.2.1 = true := by
  have h1 := claim2_theorem (.num 5) (.num 10) 4 3 false
  have h2 := claim2_theorem (.num 20) (.num 10) 2 3 false
  have i1 : (early_stopping (.num 5) (.num 10) 4 3 false).2.2.2 = true := by
    rw [h1.1]; with_unfolding_all decide
  have i2 : (early_stopping (.num 20) (.num 10) 2 3 false).2.2.2 = false := by
    rw [h2.1]; with_unfolding_all decide
  refine ⟨(h1.2.1 i1).1, (h1.2.1 i1).2, (h2.2.2.1 i2).2, ?_⟩
  exact h2.2.2.2.mpr ⟨by decide, by rw [(h2.2.2.1 i2).2]; decide⟩

/-- **C10**: in the base trainer's `fit`, every completed epoch-loop
iteration records the unconditional checkpoint written right after the
training epoch (line 263) even when `saved = false`; the `saved` flag only
controls the other two save sites (the extra save of the no-validation
branch and the best-model save after an improved validation): with
`saved = false` every save event of the iteration is the after-train one. -/
theorem claim10_theorem (cfg : FitCfg) (tl : ℕ → List LossValue)
    (vl : Option (ℕ → List LossValue)) (saved : Bool) (st st2 : FitState)
    (e : ℕ) (ev : List FitEvent) (stop : Bool)
    (h : Trainer.fitEpoch cfg tl vl saved st e = .ok (st2, ev, stop)) :
    FitEvent.saved e .afterTrain ∈ ev ∧
    (saved = false → ∀ e2 site, FitEvent.saved e2 site ∈ ev → site = .afterTrain) := by
  unfold Trainer.fitEpoch at h
  cases htr : Trainer.train_epoch (tl e) with
  | error err => rw [htr] at h; simp [exbind_error] at h
  | ok s =>
    rw [htr] at h
    simp only [exbind_ok] at h
    cases vl with
    | none =>
      simp only at h
      cases saved <;> simp_all <;> rcases h with ⟨h1, h2, h3⟩ <;> subst h2 <;> simp
    | some vf =>
      simp only at h
      by_cases h1 : cfg.eval_step ≤ 0
      · simp only [if_pos h1] at h
        cases saved <;> simp_all <;> rcases h with ⟨ha, hb, hc⟩ <;> subst hb <;> simp
      · simp only [if_neg h1] at h
        by_cases h2 : ((e : ℤ) + 1) % cfg.eval_step = 0
        · simp only [if_pos h2] at h
          cases hv : Trainer.valid_epoch (vf e) with
          | error err => rw [hv] at h; simp [exbind_error] at h
          | ok v =>
            rw [hv] at h
            simp only [exbind_ok] at h
            injection h with h4
            simp only [Prod.mk.injEq] at h4
            obtain ⟨ha, hb, hc⟩ := h4
            subst hb
            constructor
            · split <;> simp
            · intro hsf e2 site hmem
              subst hsf
              split at hmem <;> simp_all
        · simp only [if_neg h2] at h
          injection h with h4
          simp only [Prod.mk.injEq] at h4
          obtain ⟨ha, hb, hc⟩ := h4
          subst hb; simp

/-- Witness for C10 at a concrete input: an epoch run with `saved = false`
and an improving validation still records the after-train checkpoint, and
every save event it records is the after-train one.  Derived by applying
`claim10_theorem`. -/
theorem claim10_witness :
    FitEvent.saved 0 .afterTrain ∈
      [FitEvent.trained 0, .saved 0 .afterTrain, .validated 0] ∧
    (∀ e2 site, FitEvent.saved e2 site ∈
      [FitEvent.trained 0, .saved 0 .afterTrain, .validated 0] →
      site = .afterTrain) := by
  have h := claim10_theorem { eval_step := 1, stopping_step := 2, npExp := id }
    (fun _ => [.scalar (.num 3)]) (some fun _ => [.scalar (.num 4)]) false
    Trainer.initState
    { cur_step := 0, best_valid_score := .num 4,
      best_valid_result := some (.num 4),
      train_loss_ppl_dict := [(0, .num 3, .num 3)] }
    0 [.trained 0, .saved 0 .afterTrain, .validated 0] false
    (by with_unfolding_all decide)
  exact ⟨h.1, h.2 rfl⟩

/-- **C3, counterexample**: with `saved = false`, an improved validation
does overwrite the best-result cache but does NOT save a best checkpoint
(the save at line 294 is guarded by the `saved` flag), refuting "when the
policy reports improvement, the best-result cache is overwritten and a best
checkpoint is saved". -/
theorem claim3_counterexample :
    (Trainer.fit { eval_step := 1, stopping_step := 2, npExp := id } 1 0
      (fun _ => [.scalar (.num 3)]) (some fun _ => [.scalar (.num 4)]) false
      Trainer.initState).map (fun r => (r.1.best_valid_result, r.2.1)) =
      .ok (some (.num 4), [.trained 0, .saved 0 .afterTrain, .validated 0]) ∧
    FitEvent.saved 0 .best ∉
      [FitEvent.trained 0, .saved 0 .afterTrain, .validated 0] := by
  with_unfolding_all decide

/-- **C3, amended**: in the base trainer's `fit` with validation enabled
(`valid_data` present and `eval_step > 0`), each completed epoch-loop
iteration at epoch `e` runs a validation epoch exactly when
`(e+1) mod eval_step = 0` (and all its events concern epoch `e` only); the
early-stopping policy is always invoked with `bigger = false`, i.e. the
post-state and stop flag are exactly the `early_stopping … false` outputs;
when the policy reports improvement the best-result cache is overwritten
and, when the `saved` flag is set, a best checkpoint is saved; and when the
policy reports `should_stop` the epoch loop returns immediately, running no
further training epochs. -/
theorem claim3_theorem :
    (∀ (cfg : FitCfg) (tl : ℕ → List LossValue) (vf : ℕ → List LossValue)
      (saved : Bool) (st st2 : FitState) (e : ℕ) (ev : List FitEvent) (stop : Bool),
      0 < cfg.eval_step →
      Trainer.fitEpoch cfg tl (some vf) saved st e = .ok (st2, ev, stop) →
      ((FitEvent.validated e ∈ ev ↔ ((e : ℤ) + 1) % cfg.eval_step = 0) ∧
       (∀ e2, FitEvent.trained e2 ∈ ev → e2 = e) ∧
       (∀ v, ((e : ℤ) + 1) % cfg.eval_step = 0 →
         Trainer.valid_epoch (vf e) = .ok v →
         st2.best_valid_score =
           (early_stopping v st.best_valid_score st.cur_step cfg.stopping_step false).1 ∧
         st2.cur_step =
           (early_stopping v st.best_valid_score st.cur_step cfg.stopping_step false).2.1 ∧
         stop =
           (early_stopping v st.best_valid_score st.cur_step cfg.stopping_step false).2.2.1 ∧
         ((early_stopping v st.best_valid_score st.cur_step cfg.stopping_step false).2.2.2 = true →
           st2.best_valid_result = some (cfg.npExp v) ∧
           (saved = true → FitEvent.saved e .best ∈ ev))) ∧
       (¬ ((e : ℤ) + 1) % cfg.eval_step = 0 → stop = false))) ∧
    (∀ (cfg : FitCfg) (tl : ℕ → List LossValue)
      (vl : Option (ℕ → List LossValue)) (saved : Bool) (st st2 : FitState)
      (e fuel : ℕ) (ev : List FitEvent),
      Trainer.fitEpoch cfg tl vl saved st e = .ok (st2, ev, true) →
      Trainer.fitLoop cfg tl vl saved st e (fuel + 1) = .ok (st2, ev)) := by
  constructor
  · intro cfg tl vf saved st st2 e ev stop hpos h
    unfold Trainer.fitEpoch at h
    cases htr : Trainer.train_epoch (tl e) with
    | error err => rw [htr] at h; simp [exbind_error] at h
    | ok s =>
      rw [htr] at h
      simp only [exbind_ok] at h
      have h1 : ¬ cfg.eval_step ≤ 0 := by omega
      simp only [if_neg h1] at h
      by_cases h2 : ((e : ℤ) + 1) % cfg.eval_step = 0
      · simp only [if_pos h2] at h
        cases hv : Trainer.valid_epoch (vf e) with
        | error err => rw [hv] at h; simp [exbind_error] at h
        | ok v =>
          rw [hv] at h
          simp only [exbind_ok] at h
          injection h with h4
          simp only [Prod.mk.injEq] at h4
          obtain ⟨ha, hb, hc⟩ := h4
          subst hb
          refine ⟨⟨fun _ => h2, fun _ => by split <;> simp⟩, ?_, ?_,
            fun hne => absurd h2 hne⟩
          · intro e2 hmem
            split at hmem <;> simp_all
          · intro v2 _ hv2
            injection hv2 with hv3
            subst hv3
            rw [← ha, ← hc]
            refine ⟨?_, ?_, ?_, ?_⟩
            · split <;> rfl
            · split <;> rfl
            · rfl
            · intro hupd
              constructor
              · simp [hupd]
              · intro hsv
                subst hsv
                simp [hupd]
      · simp only [if_neg h2] at h
        injection h with h4
        simp only [Prod.mk.injEq] at h4
        obtain ⟨ha, hb, hc⟩ := h4
        subst hb
        exact ⟨by simp [h2], by intro e2 hmem; simp_all,
          fun v hmod _ => absurd hmod h2, fun _ => hc.symm⟩
  · intro cfg tl vl saved st st2 e fuel ev h
    unfold Trainer.fitLoop
    rw [h]
    simp [exbind_ok]

/-- Witness for C3 at concrete inputs: with `eval_step = 2` an epoch-body
run at epoch 1 validates (`(1+1) mod 2 = 0`), and a body reporting
`should_stop` makes the loop with four more epochs of budget return
immediately with that body's state and events.  Derived by applying
`claim3_theorem`. -/
theorem claim3_witness :
    FitEvent.validated 1 ∈
      [FitEvent.trained 1, .saved 1 .afterTrain, .validated 1, .saved 1 .best] ∧
    Trainer.fitLoop { eval_step := 1, stopping_step := 1, npExp := id }
      (fun _ => [.scalar (.num 3)]) (some fun _ => [.scalar (.num 7)]) true
      { cur_step := 0, best_valid_score := .num 5, best_valid_result := none,
        train_loss_ppl_dict := [] } 1 5 =
      .ok ({ cur_step := 1, best_valid_score := .num 5,
             best_valid_result := none,
             train_loss_ppl_dict := [(1, .num 3, .num 3)] },
           [.trained 1, .saved 1 .afterTrain, .validated 1]) := by
  constructor
  · exact (claim3_theorem.1 { eval_step := 2, stopping_step := 2, npExp := id }
      (fun _ => [.scalar (.num 3)]) (fun _ => [.scalar (.num 4)]) true
      Trainer.initState
      { cur_step := 0, best_valid_score := .num 4,
        best_valid_result := some (.num 4),
        train_loss_ppl_dict := [(1, .num 3, .num 3)] }
      1 [.trained 1, .saved 1 .afterTrain, .validated 1, .saved 1 .best] false
      (by decide) (by with_unfolding_all decide)).1.mpr (by decide)
  · exact claim3_theorem.2 { eval_step := 1, stopping_step := 1, npExp := id }
      (fun _ => [.scalar (.num 3)]) (some fun _ => [.scalar (.num 7)]) true
      { cur_step := 0, best_valid_score := .num 5, best_valid_result := none,
        train_loss_ppl_dict := [] }
      { cur_step := 1, best_valid_score := .num 5, best_valid_result := none,
        train_loss_ppl_dict := [(1, .num 3, .num 3)] }
      1 4 [.trained 1, .saved 1 .afterTrain, .validated 1]
      (by with_unfolding_all decide)

/-- **C8**: in `MaskGANTrainer._adversarial_train_epoch` over a non-empty
dataset with at least one discriminator micro-step per macro-step and
well-typed non-NaN scalar losses, the epoch never raises past end-of-data:
the discriminator-side iterator wraps around (the `k`-th micro-step consumes
the batch at index `(1 + k) mod n`, restarting from a freshly copied
iterator whenever the previous one is exhausted), and the epoch returns the
three independent running means — discriminator total over
`d_num = n·adversarail_d_epochs` micro-steps, generator and critic totals
each over their own `g_num = n` macro-steps. -/
theorem claim8_theorem {B : Type} (data : List B) (m : ℕ)
    (dval gval cval : B → ℕ → ℚ) (dLoss : B → ℕ → LossValue)
    (gLoss : B → ℕ → LossValue × LossValue)
    (hne : data ≠ []) (hm : 1 ≤ m)
    (hd : ∀ b i, dLoss b i = .scalar (.num (dval b i)))
    (hg : ∀ b g, gLoss b g =
      (.scalar (.num (gval b g)), .scalar (.num (cval b g)))) :
    MaskGANTrainer.adversarial_train_epoch data m dLoss gLoss =
      .ok (.num (MaskGANTrainer.advDSpec data dval m 0 data.length /
                   ((data.length * m : ℕ) : ℚ)),
           .num (MaskGANTrainer.gSpecSum gval data 0 / ((data.length : ℕ) : ℚ)),
           .num (MaskGANTrainer.gSpecSum cval data 0 / ((data.length : ℕ) : ℚ))) := by
  obtain ⟨mm, rfl⟩ : ∃ mm, m = mm + 1 := ⟨m - 1, by omega⟩
  have hn : 0 < data.length := List.length_pos.mpr hne
  have hnm : data.length * (mm + 1) ≠ 0 := by positivity
  unfold MaskGANTrainer.adversarial_train_epoch
  have h0 : (PyIter.mk data 0).next = .ok (data[0], ⟨data, 1⟩) := by
    have hb : data[(0:ℕ)]? = some (data[0]) := List.getElem?_eq_getElem hn
    simp [PyIter.next, hb]
  dsimp only
  rw [h0]
  simp only [exbind_ok]
  have h1 : (⟨data, 1⟩ : PyIter B) = ⟨data, 0 % data.length + 1⟩ := by
    simp
  rw [h1]
  have hnone : (none : Option LossValue) = optQ none := rfl
  rw [hnone, genLoop_spec data dval gval cval dLoss gLoss mm hne hd hg
    data 0 0 none none none]
  have hie : data.isEmpty = false := by
    cases data with
    | nil => exact absurd rfl hne
    | cons a l => rfl
  simp only [hie, Bool.false_eq_true, if_false, Option.getD_none, zero_add,
    Nat.zero_add, exbind_ok]
  rw [pyDivCount_optQ _ _ hnm, pyDivCount_optQ _ _ (by omega)]
  simp only [exbind_ok]
  rw [pyDivCount_optQ _ _ (by omega)]
  simp only [exbind_ok]

/-- Witness for C8 at a concrete input: data `[10, 20, 30]` with
`adversarail_d_epochs = 2`, `dLoss b i = b + i`, generator loss `b` and
critic loss `b·g_num`.  The epoch needs 6 discriminator micro-steps but only
2 batches remain after the discarded first draw, so the iterator wraps twice
— and the epoch still returns `.ok`, with the three means evaluating to
`41/2`, `20` and `140/3`.  Derived by applying `claim8_theorem`. -/
theorem claim8_witness :
    MaskGANTrainer.adversarial_train_epoch [(10:ℚ), 20, 30] 2
      (fun b i => .scalar (.num (b + i)))
      (fun b g => (.scalar (.num b), .scalar (.num (b * g)))) =
      .ok (.num (MaskGANTrainer.advDSpec [(10:ℚ), 20, 30]
                   (fun b i => b + i) 2 0 3 / ((6 : ℕ) : ℚ)),
           .num (MaskGANTrainer.gSpecSum (fun b _ => b) [(10:ℚ), 20, 30] 0 /
                   ((3 : ℕ) : ℚ)),
           .num (MaskGANTrainer.gSpecSum (fun b g => b * g) [(10:ℚ), 20, 30] 0 /
                   ((3 : ℕ) : ℚ))) ∧
    MaskGANTrainer.adversarial_train_epoch [(10:ℚ), 20, 30] 2
      (fun b i => .scalar (.num (b + i)))
      (fun b g => (.scalar (.num b), .scalar (.num (b * g)))) =
      .ok (.num (41/2), .num 20, .num (140/3)) := by
  constructor
  · exact claim8_theorem [(10:ℚ), 20, 30] 2 (fun b i => b + i) (fun b _ => b)
      (fun b g => b * g)
      (fun b i => .scalar (.num (b + i)))
      (fun b g => (.scalar (.num b), .scalar (.num (b * g))))
      (List.cons_ne_nil _ _) (by omega) (fun b i => rfl) (fun b g => rfl)
  · with_unfolding_all decide

/-- **C9**: for every learner-kind string, building an optimizer never
fails: `adam`, `sgd`, `adagrad`, `rmsprop` (case-insensitive) yield the
corresponding optimizer (both in `_build_optimizer` and, for either value of
the parameter-split capability flag, in `_build_module_optimizer`), and any
other kind falls back to Adam while emitting a warning — the functions are
total, no error value exists. -/
theorem claim9_theorem (learner : PyStr) (multi_flag : Bool) :
    (pyLower learner = "adam".data →
      Trainer.build_optimizer learner = (.adam, false) ∧
      GANTrainer.build_module_optimizer learner multi_flag =
        (if multi_flag then .multi .adam .adam else .single .adam, false)) ∧
    (pyLower learner = "sgd".data →
      Trainer.build_optimizer learner = (.sgd, false) ∧
      GANTrainer.build_module_optimizer learner multi_flag =
        (if multi_flag then .multi .sgd .sgd else .single .sgd, false)) ∧
    (pyLower learner = "adagrad".data →
      Trainer.build_optimizer learner = (.adagrad, false) ∧
      GANTrainer.build_module_optimizer learner multi_flag =
        (if multi_flag then .multi .adagrad .adagrad else .single .adagrad, false)) ∧
    (pyLower learner = "rmsprop".data →
      Trainer.build_optimizer learner = (.rmsprop, false) ∧
      GANTrainer.build_module_optimizer learner multi_flag =
        (if multi_flag then .multi .rmsprop .rmsprop else .single .rmsprop, false)) ∧
    (pyLower learner ≠ "adam".data → pyLower learner ≠ "sgd".data →
      pyLower learner ≠ "adagrad".data → pyLower learner ≠ "rmsprop".data →
      Trainer.build_optimizer learner = (.adam, true) ∧
      GANTrainer.build_module_optimizer learner multi_flag =
        (if multi_flag then .multi .adam .adam else .single .adam, true)) := by
  unfold Trainer.build_optimizer GANTrainer.build_module_optimizer
  refine ⟨fun h => ?_, fun h => ?_, fun h => ?_, fun h => ?_,
    fun h1 h2 h3 h4 => ?_⟩ <;> simp_all

/-- Witness for C9: the spec's scenario `"lbfgs"` (and uppercase `"ADAM"`):
`"lbfgs"` is unrecognized, so both factories fall back to Adam with a
warning; `"ADAM"` resolves case-insensitively to Adam without one.  Derived
by applying `claim9_theorem`. -/
theorem claim9_witness :
    Trainer.build_optimizer "lbfgs".data = (.adam, true) ∧
    GANTrainer.build_module_optimizer "lbfgs".data true = (.multi .adam .adam, true) ∧
    Trainer.build_optimizer "ADAM".data = (.adam, false) := by
  have h1 := claim9_theorem "lbfgs".data true
  have h2 := claim9_theorem "ADAM".data false
  have h3 := h1.2.2.2.2 (by decide) (by decide) (by decide) (by decide)
  have h4 := h2.1 (by decide)
  exact ⟨h3.1, h3.2, h4.1⟩

/-- **C6, counterexample**: a checkpoint written by
`GANTrainer._save_checkpoint` contains NO optimizer state at all (the
`'optimizer'` key is absent from the saved dict), refuting "every checkpoint
written by a trainer's save operation contains … all optimizer states". -/
theorem claim6_counterexample :
    (GANTrainer.save_checkpoint
      (⟨"MaskGAN".data, 0, 2, .num 5, (7 : ℕ), (9 : ℕ),
        "saved/MaskGAN-t.pth".data⟩ : TrainerCkpt ℕ ℕ) 3).1.optimizer = none := rfl

/-- **C6, amended**: a checkpoint written by the base `Trainer`'s save
contains the model parameter state, the (single) optimizer state, and the
fields `epoch`, `cur_step`, `best_valid_score`; a checkpoint written by the
GAN-family save contains the model parameter state and the same three
training-state fields but omits optimizer states entirely.  Both are written
to the trainer's `saved_model_file`, the path derived from the model kind
and creation timestamp as `{dir}/{model}-{timestamp}.pth`. -/
theorem claim6_theorem {P O : Type} (t : TrainerCkpt P O) (e : ℤ)
    (d mname ts : PyStr) :
    (Trainer.save_checkpoint t e).1 =
      ⟨t.config_model, e, t.cur_step, t.best_valid_score, t.params, some t.opt_state⟩ ∧
    (Trainer.save_checkpoint t e).2 = t.saved_model_file ∧
    (GANTrainer.save_checkpoint t e).1 =
      ⟨t.config_model, e, t.cur_step, t.best_valid_score, t.params, none⟩ ∧
    (GANTrainer.save_checkpoint t e).2 = t.saved_model_file ∧
    Trainer.saved_model_file_of d mname ts =
      d ++ "/".data ++ mname ++ "-".data ++ ts ++ ".pth".data :=
  ⟨rfl, rfl, rfl, rfl, rfl⟩

/-- **C7**: saving a base-trainer checkpoint at epoch `e` and loading it via
`resume_checkpoint` into any (freshly constructed) trainer restores
`cur_step`, `best_valid_score` and the model parameters exactly, sets
`start_epoch = e + 1` (resumption continues from the epoch after the saved
one), restores the optimizer state, and the warning flag is raised exactly
when the lowercased model names of checkpoint and configuration differ —
restoration proceeding regardless. -/
theorem claim7_theorem {P O : Type} (t t2 : TrainerCkpt P O) (e : ℤ) :
    Trainer.resume_checkpoint (Trainer.save_checkpoint t e).1 t2 =
      .ok ({ t2 with
              start_epoch := e + 1
              cur_step := t.cur_step
              best_valid_score := t.best_valid_score
              params := t.params
              opt_state := t.opt_state },
           decide (pyLower t.config_model ≠ pyLower t2.config_model)) := rfl

/-- **C5** (code bug, evaluated at the failing input): over an epoch of two
steps with tuple losses `(1, 2)` and `(3, 4)`, the running total is the
element-wise sum `(4, 6)` — but the base trainer's `_train_epoch` then
raises `TypeError` at `total_loss / len(train_data)` (a Python tuple cannot
be divided by an `int`) instead of producing the element-wise mean, while
`GANTrainer._g_train_epoch` on the same input returns the element-wise mean
`(2, 3)` as documented. -/
theorem claim5_theorem :
    epochSteps [.tup [.num 1, .num 2], .tup [.num 3, .num 4]] none =
      .ok (some (.tup [.num 4, .num 6])) ∧
    Trainer.train_epoch [.tup [.num 1, .num 2], .tup [.num 3, .num 4]] =
      .error .typeError ∧
    GANTrainer.g_train_epoch [.tup [.num 1, .num 2], .tup [.num 3, .num 4]] =
      .ok (.tup [.num 2, .num 3]) := by
  with_unfolding_all decide

/-- **C4** (code bug, evaluated at the failing input): with
`adversarail_training_epochs = 1` (the spec's own scenario
`g=0, d=0, adv=1, adv_d=1`), `GANTrainer.fit` raises `AttributeError` from
the store into the never-initialised `self.train_loss_dict` (line 621) right
after the first adversarial epoch, so no checkpoint is written and
`(-1, None)` is never returned; with `adversarail_training_epochs = 0` the
three phases run in order and fit does write exactly one terminal checkpoint
and return `(-1, None)`. -/
theorem claim4_theorem :
    GANTrainer.fit 0 0 1 1 1 1 (fun _ => [.scalar (.num 1)])
      (fun _ _ _ => .scalar (.num 1)) (fun _ => .scalar (.num 1))
      (fun _ _ _ _ => .scalar (.num 1)) = .error .attributeError ∧
    GANTrainer.fit 1 1 0 1 2 3 (fun _ => [.scalar (.num 2), .scalar (.num 4)])
      (fun _ _ _ => .scalar (.num 6)) (fun _ => .scalar (.num 1))
      (fun _ _ _ _ => .scalar (.num 1)) =
      .ok { g_dict := [(0, .num 3)], d_dict := [(0, .num 6)], saves := [0],
            ret := (.num (-1), none) } := by
  with_unfolding_all decide

end TextBox
